import Mathlib

/-!
Verification of the whoop-copilot repository: a shallow embedding of the
analysis functions (`src/whoop_copilot/analyzer.py`), the OAuth token
lifecycle (`src/whoop_copilot/oauth_whoop.py`) and the token cache
(`src/whoop_copilot/config.py`), together with proofs settling the
spec claims about them.

Conventions of the embedding:
* Python floats (amounts, recovery scores) are modelled as rationals `ℚ`;
  all the arithmetic the verified properties touch (sums, means, bin
  comparisons) is exact on the inputs involved.
* A `pandas` timestamp (the result of `pd.to_datetime`) is modelled as a
  calendar day (an integer day index) plus a time-of-day component;
  `.dt.date` keeps the day and discards the time of day.
* Python `None`-able values are `Option`; Python truthiness of strings and
  integers (`if access_token and issued_at and ...`) is modelled explicitly.
* Fallible operations return sum types (`Option` / explicit result
  constructors) instead of raising.
-/

/-- A `pd.to_datetime` value: calendar day index plus time-of-day.
`day` is the value of `.dt.date`; `tod` is the discarded time component. -/
structure Timestamp where
  day : ℤ
  tod : ℕ
deriving DecidableEq

/-- A Copilot Money transaction record as used by the analyzer:
a parsed `date` column value and a signed `amount`. -/
structure Txn where
  date : Timestamp
  amount : ℚ
deriving DecidableEq

/-- A WHOOP recovery record as used by the analyzer: a parsed `date` and an
optional numeric `score` (`none` models a missing/NaN score field). -/
structure RecoveryRecord where
  date : Timestamp
  score : Option ℚ
deriving DecidableEq

/-- A WHOOP workout record as used by `analyze_workout_impact_on_spending`:
only its parsed `date` column is read. -/
structure WorkoutRecord where
  date : Timestamp
deriving DecidableEq

/-- `series.dt.date`: the calendar-day component of a transaction's date. -/
def dtDate (t : Txn) : ℤ := t.date.day

/-- Python truthiness of an optional string: `None` and `""` are falsy. -/
def py_truthy : Option String → Bool
  | none => false
  | some s => decide (s ≠ "")

/-- Python truthiness of an optional integer: `None` and `0` are falsy. -/
def py_truthy_int : Option ℤ → Bool
  | none => false
  | some n => decide (n ≠ 0)

/-- Python truthiness of an optional rational: `None` and `0` are falsy
(models `if r.get("score")` on a numeric field). -/
def py_truthy_num : Option ℚ → Bool
  | none => false
  | some q => decide (q ≠ 0)

/-- First-occurrence duplicate elimination with an explicit `seen`
accumulator: `unique_aux l seen` lists the members of `l` that are not in
`seen`, each once, in order of first occurrence.  This is the semantics of
`pandas.Series.unique()` used on the transaction dates. -/
def unique_aux : List ℤ → List ℤ → List ℤ
  | [], _ => []
  | d :: rest, seen =>
    if d ∈ seen then unique_aux rest seen else d :: unique_aux rest (d :: seen)

/-- The distinct calendar days of a list of day indices, in order of first
occurrence (`pandas.Series.unique()`; for `groupby` the keys come out
sorted instead, an ordering difference immaterial to every property proved
below, all of which are order-insensitive). -/
def uniqueKeys (l : List ℤ) : List ℤ := unique_aux l []

/-- `transactions_df[transactions_df["date"].dt.date == date]["amount"].sum()`:
total transaction amount on calendar day `d` (0 for a day with no
transactions, as `pandas` sums an empty selection to 0). -/
def dailyTotal (txns : List Txn) (d : ℤ) : ℚ :=
  ((txns.filter (fun t => dtDate t = d)).map Txn.amount).sum

/-- `transactions_df.groupby(transactions_df["date"].dt.date)["amount"].sum()`:
one `(day, summed amount)` row per distinct calendar day of the
transaction list (analyzer.py line 58). -/
def dailySpending (txns : List Txn) : List (ℤ × ℚ) :=
  (uniqueKeys (txns.map dtDate)).map (fun d => (d, dailyTotal txns d))

/-- Reads a daily-aggregate table back as a transaction list (one
transaction per day, at midnight), so that aggregation can be applied to
its own output to state idempotence. -/
def aggAsTxns (l : List (ℤ × ℚ)) : List Txn :=
  l.map (fun p => { date := { day := p.1, tod := 0 }, amount := p.2 })

/-- The three recovery bands of `pd.cut(..., labels=["Low","Medium","High"])`. -/
inductive RecoveryCategory where
  | Low
  | Medium
  | High
deriving DecidableEq

/-- `pd.cut(score, bins=[0, 33, 66, 100], labels=["Low","Medium","High"])`
(analyzer.py lines 73–77).  With `pd.cut`'s defaults (`right=True`,
`include_lowest=False`) the bins are the left-open right-closed intervals
(0, 33], (33, 66], (66, 100]; a value outside all three (in particular 0
itself, and anything > 100) gets no category (NaN). -/
def cutRecovery (s : ℚ) : Option RecoveryCategory :=
  if 0 < s ∧ s ≤ 33 then some .Low
  else if 33 < s ∧ s ≤ 66 then some .Medium
  else if 66 < s ∧ s ≤ 100 then some .High
  else none

/-- The result of one of the two analysis functions: the explicit
`{"error": "No data available for analysis"}` dictionary, or a computed
analysis.  The embedded functions are total: `noData` is a returned value,
not an exception. -/
inductive AnalysisResult (α : Type) where
  | noData
  | result (r : α)
deriving DecidableEq

/-- The per-band statistics dictionary built by
`analyze_spending_vs_recovery` (analyzer.py lines 86–90).
`avg_daily_spending` is `pandas`' mean, which is NaN (`none`) on an empty
selection. -/
structure CatStats where
  total_spending : ℚ
  avg_daily_spending : Option ℚ
  transaction_count : ℕ
deriving DecidableEq

/-- The fields of the `analyze_spending_vs_recovery` result dictionary that
the verified properties concern: the `spending_by_recovery` sub-dictionary
(keys present only for bands with at least one recovery date, analyzer.py
lines 79–90).  The `correlation` and `data_points` fields (the
pandas outer-join/Pearson machinery, whose value is irrational in general)
are not modelled; no claim concerns them. -/
structure SvRAnalysis where
  spending_by_recovery : List (RecoveryCategory × CatStats)
deriving DecidableEq

/-- `WhoopCopilotAnalyzer.analyze_spending_vs_recovery` (analyzer.py lines
38–97), embedded on the two series it reads: the fetched recovery records
and transaction records.  Returns the no-data dictionary when either input
series is empty (lines 48–49); otherwise builds `spending_by_recovery` by
categorising each recovery record's score with `pd.cut` and selecting the
transactions whose full timestamp is among that band's recovery dates. -/
def analyze_spending_vs_recovery (recovery : List RecoveryRecord)
    (transactions : List Txn) : AnalysisResult SvRAnalysis :=
  if recovery = [] ∨ transactions = [] then .noData
  else
    let categoryDates : RecoveryCategory → List Timestamp := fun c =>
      (recovery.filter (fun r => r.score.bind cutRecovery = some c)).map RecoveryRecord.date
    let bandStats : RecoveryCategory → Option (RecoveryCategory × CatStats) := fun c =>
      let ds := categoryDates c
      if ds = [] then none
      else
        let catTxns := transactions.filter (fun t => t.date ∈ ds)
        some (c, { total_spending := (catTxns.map Txn.amount).sum
                   avg_daily_spending :=
                     if catTxns.length = 0 then none
                     else some ((catTxns.map Txn.amount).sum / catTxns.length)
                   transaction_count := catTxns.length })
    .result { spending_by_recovery :=
                ([RecoveryCategory.Low, .Medium, .High]).filterMap bandStats }

/-- The per-partition statistics dictionary of
`analyze_workout_impact_on_spending` (analyzer.py lines 133–142):
`avg_spending` is `sum/len if the partition is non-empty else 0`. -/
structure PartitionStats where
  count : ℕ
  avg_spending : ℚ
  total_spending : ℚ
deriving DecidableEq

/-- The `analyze_workout_impact_on_spending` result dictionary:
`spending_difference` is present (`some`) exactly when the code adds the
key (analyzer.py lines 147–151). -/
structure WorkoutImpactAnalysis where
  workout_days : PartitionStats
  non_workout_days : PartitionStats
  spending_difference : Option ℚ
deriving DecidableEq

/-- `WhoopCopilotAnalyzer.analyze_workout_impact_on_spending` (analyzer.py
lines 99–153), embedded on the two series it reads: the fetched workout
records and transaction records (it never reads the recovery series).
Returns the no-data dictionary when either of those is empty (lines
108–109); otherwise partitions the distinct transaction days by membership
in the set of workout days and computes count/average/total per partition,
adding `spending_difference` only when both partitions are non-empty. -/
def analyze_workout_impact_on_spending (workouts : List WorkoutRecord)
    (transactions : List Txn) : AnalysisResult WorkoutImpactAnalysis :=
  if workouts = [] ∨ transactions = [] then .noData
  else
    let workoutDates : List ℤ := workouts.map (fun w => w.date.day)
    let days : List ℤ := uniqueKeys (transactions.map dtDate)
    let wSpend : List ℚ := (days.filter (fun d => d ∈ workoutDates)).map (dailyTotal transactions)
    let nSpend : List ℚ := (days.filter (fun d => d ∉ workoutDates)).map (dailyTotal transactions)
    .result
      { workout_days :=
          { count := wSpend.length
            avg_spending := if wSpend = [] then 0 else wSpend.sum / wSpend.length
            total_spending := wSpend.sum }
        non_workout_days :=
          { count := nSpend.length
            avg_spending := if nSpend = [] then 0 else nSpend.sum / nSpend.length
            total_spending := nSpend.sum }
        spending_difference :=
          if wSpend ≠ [] ∧ nSpend ≠ [] then
            some ((if wSpend = [] then 0 else wSpend.sum / wSpend.length) -
                  (if nSpend = [] then 0 else nSpend.sum / nSpend.length))
          else none }

/-- The `recovery_analysis` sub-dictionary of
`generate_health_finance_report` (analyzer.py lines 177–186). -/
structure RecoveryAnalysis where
  average_score : ℚ
  best_score : ℚ
  worst_score : ℚ
  dist_low : ℕ
  dist_medium : ℕ
  dist_high : ℕ
deriving DecidableEq

/-- `[r.get("score", 0) for r in whoop_data["recovery"] if r.get("score")]`
(analyzer.py line 175): the scores kept for the recovery statistics.  The
comprehension's filter is Python truthiness of `r.get("score")`, so a
record whose score is absent (`None`) or equal to 0 is dropped. -/
def recovery_scores (recs : List RecoveryRecord) : List ℚ :=
  (recs.filter (fun r => py_truthy_num r.score)).map (fun r => r.score.getD 0)

/-- The recovery-statistics block of
`WhoopCopilotAnalyzer.generate_health_finance_report` (analyzer.py lines
174–186): `none` when the fetched recovery list is empty or no record
survives the truthiness filter, otherwise the average/best/worst of the
kept scores and their distribution over the `<= 33`, `33 < s <= 66`,
`> 66` buckets.  (The `getD 0` defaults are never reached: the list is
non-empty on the branch that uses them.) -/
def recovery_analysis (recs : List RecoveryRecord) : Option RecoveryAnalysis :=
  if recs = [] then none
  else
    let scores := recovery_scores recs
    if scores = [] then none
    else some
      { average_score := scores.sum / scores.length
        best_score := scores.max?.getD 0
        worst_score := scores.min?.getD 0
        dist_low := (scores.filter (fun s => s ≤ 33)).length
        dist_medium := (scores.filter (fun s => 33 < s ∧ s ≤ 66)).length
        dist_high := (scores.filter (fun s => 66 < s)).length }

/-- A cached token bundle (`tokens.json` entry / token-endpoint response
body): the four fields the token lifecycle reads, each possibly absent. -/
structure TokenBundle where
  access_token : Option String
  refresh_token : Option String
  expires_in : Option ℤ
  issued_at : Option ℤ
deriving DecidableEq

/-- The on-disk token map (`config.read_tokens` / `config.write_tokens`):
provider name to token bundle. -/
abbrev TokenStore := List (String × TokenBundle)

/-- Python dictionary assignment `cached[k] = v`: the updated map. -/
def store_insert (s : TokenStore) (k : String) (v : TokenBundle) : TokenStore :=
  (k, v) :: s.filter (fun p => p.1 ≠ k)

/-- The persistence step of `oauth_whoop.authorize_and_cache_tokens`
(oauth_whoop.py lines 119–123): given the bundle `resp` decoded from the
token-endpoint response and the current token store, it stores `resp`
under the key `"whoop"` — exactly as received, no field is added — and
returns the bundle.  (The browser/HTTP round trip that produced `resp` is
external I/O and is taken as the function's input.) -/
def authorize_and_cache_tokens (resp : TokenBundle) (store : TokenStore) :
    TokenBundle × TokenStore :=
  (resp, store_insert store "whoop" resp)

/-- The re-authorization path of `oauth_whoop.get_valid_token`
(oauth_whoop.py lines 145–151): it calls `authorize_and_cache_tokens`,
then sets `issued_at` to the current time on the returned bundle and
persists the amended bundle under `"whoop"` again. -/
def get_valid_token_reauth (resp : TokenBundle) (store : TokenStore) (now : ℤ) :
    TokenBundle × TokenStore :=
  let first := authorize_and_cache_tokens resp store
  let new_tokens := { first.1 with issued_at := some now }
  (new_tokens, store_insert first.2 "whoop" new_tokens)

/-- What `oauth_whoop.get_valid_token` does with the cached `"whoop"`
bundle: return the cached access token, or issue the refresh POST to the
token endpoint, or run the full interactive re-authorization.  The latter
two are the network-performing actions; `useCached` performs none. -/
inductive TokenAction where
  | useCached (token : String)
  | refreshPost
  | reauthorize
deriving DecidableEq

/-- The decision logic of `oauth_whoop.get_valid_token` (oauth_whoop.py
lines 134–152) on the cached bundle and the current time: the cached
access token is returned iff `access_token and issued_at and expires_in`
are all Python-truthy and `now < issued_at + expires_in - 60`; otherwise
a refresh POST is issued when a truthy `refresh_token` exists, and a full
interactive re-authorization is started when none does. -/
def get_valid_token_action (b : TokenBundle) (now : ℤ) : TokenAction :=
  if py_truthy b.access_token = true ∧ py_truthy_int b.issued_at = true ∧
     py_truthy_int b.expires_in = true ∧
     now < b.issued_at.getD 0 + b.expires_in.getD 0 - 60 then
    .useCached (b.access_token.getD "")
  else if py_truthy b.refresh_token = false then .reauthorize
  else .refreshPost

/-- An inbound HTTP GET request to the local listener: the raw request
path (`self.path`, query string included) together with the `code` and
`state` values that `parse_qs` extracts from its query component. -/
structure Request where
  path : String
  code : Option String
  state : Option String
deriving DecidableEq

/-- The mutable capture state of `_CallbackHandler` (class attributes
`code` and `state_expected`, oauth_whoop.py lines 16–18). -/
structure HandlerState where
  code : Option String
  state_expected : Option String
deriving DecidableEq

/-- The status code the handler answers with. -/
inductive HttpResponse where
  | ok200
  | badRequest400
  | notFound404
deriving DecidableEq

/-- `_CallbackHandler.do_GET` (oauth_whoop.py lines 20–38) as a transition
on the capture state: a request whose path starts with `"/callback"` is
answered 400 (state left unchanged) when an expected state is set (truthy)
and the request's `state` differs from it, and otherwise has its `code`
query value (possibly absent) written to the captured code and is answered
200; any other path is answered 404 with the state unchanged. -/
def do_GET (st : HandlerState) (req : Request) : HandlerState × HttpResponse :=
  if ("/callback".toList).isPrefixOf req.path.toList then
    if py_truthy st.state_expected = true ∧ req.state ≠ st.state_expected then
      (st, .badRequest400)
    else
      ({ st with code := req.code }, .ok200)
  else
    (st, .notFound404)

/-- `oauth_whoop._start_server_until_code` (oauth_whoop.py lines 41–61)
over the sequence of inbound requests: the class state is reset with the
expected `state`, the server thread runs `httpd.handle_request()` — which
serves exactly the FIRST inbound request, whatever its path, and then
terminates — and the main thread polls the captured code until the
deadline, returning it if it became truthy and `None` on timeout (so also
when no request ever arrives, `reqs = []`). -/
def start_server_until_code (expected : String) (reqs : List Request) :
    Option String :=
  let st0 : HandlerState := { code := none, state_expected := some expected }
  let st1 := match reqs with
    | [] => st0
    | r :: _ => (do_GET st0 r).1
  match st1.code with
  | some c => if c = "" then none else some c
  | none => none

/-- A parsed JSON value (the possible results of `json.loads`). -/
inductive Json where
  | obj (fields : List (String × Json))
  | arr (elems : List Json)
  | str (s : String)
  | num (n : ℚ)
  | bool (b : Bool)
  | null

/-- Whether a JSON value is an object (a Python `dict`). -/
def Json.isObj : Json → Bool
  | .obj _ => true
  | _ => false

/-- The state of the token file as `config.read_tokens` observes it:
`none` when `TOKENS_PATH` does not exist, `some none` when it exists but
`json.loads` fails on its contents, `some (some j)` when its contents
parse to the JSON value `j`. -/
abbrev TokenFileState := Option (Option Json)

/-- `config.read_tokens` (config.py lines 26–33): the parsed JSON value
when the file exists and parses — whatever JSON value that is — and the
empty dictionary both when the file is missing and when parsing raises.
Total: every branch returns a value. -/
def read_tokens (file : TokenFileState) : Json :=
  match file with
  | some (some j) => j
  | some none => .obj []
  | none => .obj []

/-! ### Helper lemmas about `unique_aux` / `uniqueKeys` -/

lemma mem_unique_aux : ∀ (l seen : List ℤ) (a : ℤ),
    a ∈ unique_aux l seen ↔ a ∈ l ∧ a ∉ seen := by
  intro l
  induction l with
  | nil => intro seen a; simp [unique_aux]
  | cons d rest ih =>
    intro seen a
    by_cases hd : d ∈ seen
    · rw [unique_aux, if_pos hd, ih]
      constructor
      · exact fun h => ⟨List.mem_cons_of_mem d h.1, h.2⟩
      · rintro ⟨h1, h2⟩
        rcases List.mem_cons.mp h1 with rfl | h1
        · exact absurd hd h2
        · exact ⟨h1, h2⟩
    · rw [unique_aux, if_neg hd]
      constructor
      · intro h
        rcases List.mem_cons.mp h with rfl | h
        · exact ⟨List.mem_cons_self a rest, hd⟩
        · have := (ih (d :: seen) a).mp h
          exact ⟨List.mem_cons_of_mem d this.1,
                 fun hseen => this.2 (List.mem_cons_of_mem d hseen)⟩
      · rintro ⟨h1, h2⟩
        rcases List.mem_cons.mp h1 with rfl | h1
        · exact List.mem_cons_self a _
        · by_cases had : a = d
          · exact had ▸ List.mem_cons_self d _
          · refine List.mem_cons_of_mem d ((ih (d :: seen) a).mpr ⟨h1, ?_⟩)
            intro hmem
            rcases List.mem_cons.mp hmem with h | h
            · exact had h
            · exact h2 h

lemma nodup_unique_aux : ∀ (l seen : List ℤ), (unique_aux l seen).Nodup := by
  intro l
  induction l with
  | nil => intro seen; simp [unique_aux]
  | cons d rest ih =>
    intro seen
    by_cases hd : d ∈ seen
    · rw [unique_aux, if_pos hd]; exact ih seen
    · rw [unique_aux, if_neg hd]
      refine List.nodup_cons.mpr ⟨?_, ih _⟩
      intro hmem
      exact ((mem_unique_aux rest (d :: seen) d).mp hmem).2 (List.mem_cons_self d seen)

lemma mem_uniqueKeys (l : List ℤ) (a : ℤ) : a ∈ uniqueKeys l ↔ a ∈ l := by
  rw [uniqueKeys, mem_unique_aux]; simp

lemma nodup_uniqueKeys (l : List ℤ) : (uniqueKeys l).Nodup := nodup_unique_aux l []

lemma unique_aux_eq_self : ∀ (l : List ℤ), l.Nodup → ∀ (seen : List ℤ),
    (∀ a ∈ l, a ∉ seen) → unique_aux l seen = l := by
  intro l
  induction l with
  | nil => intro _ seen _; rfl
  | cons d rest ih =>
    intro hnd seen hsub
    rw [unique_aux, if_neg (hsub d (List.mem_cons_self d rest))]
    congr 1
    refine ih (List.nodup_cons.mp hnd).2 (d :: seen) ?_
    intro a ha hmem
    rcases List.mem_cons.mp hmem with rfl | h
    · exact (List.nodup_cons.mp hnd).1 ha
    · exact hsub a (List.mem_cons_of_mem d ha) h

lemma uniqueKeys_eq_self (l : List ℤ) (h : l.Nodup) : uniqueKeys l = l :=
  unique_aux_eq_self l h [] (by simp)

/-! ### Helper lemmas about daily aggregation -/

lemma sum_map_filter_split (l : List Txn) (p : Txn → Bool) :
    ((l.filter p).map Txn.amount).sum
      + ((l.filter (fun t => ! p t)).map Txn.amount).sum
      = (l.map Txn.amount).sum := by
  induction l with
  | nil => simp
  | cons t rest ih =>
    cases hp : p t <;>
      simp only [List.filter_cons, hp, Bool.not_true, Bool.not_false, if_pos, if_neg,
        Bool.false_eq_true, ite_false, ite_true, List.map_cons, List.sum_cons] <;>
      linarith [ih]

lemma dailyTotal_filter_ne (txns : List Txn) (d d' : ℤ) (h : d' ≠ d) :
    dailyTotal (txns.filter (fun t => ! decide (dtDate t = d))) d' = dailyTotal txns d' := by
  unfold dailyTotal
  rw [List.filter_filter]
  congr 2
  refine List.filter_congr ?_
  intro t _
  by_cases ht : dtDate t = d'
  · simp [ht, h]
  · simp [ht]

lemma sum_dailyTotal_of_cover : ∀ (keys : List ℤ), keys.Nodup → ∀ (txns : List Txn),
    (∀ t ∈ txns, dtDate t ∈ keys) →
    (keys.map (fun d => dailyTotal txns d)).sum = (txns.map Txn.amount).sum := by
  intro keys
  induction keys with
  | nil =>
    intro _ txns hcov
    have htx : txns = [] :=
      List.eq_nil_iff_forall_not_mem.mpr (fun t ht => by simpa using hcov t ht)
    simp [htx]
  | cons d ks ih =>
    intro hnd txns hcov
    have hnd' := List.nodup_cons.mp hnd
    have hmap : ks.map (fun x => dailyTotal txns x)
        = ks.map (fun x => dailyTotal (txns.filter (fun t => ! decide (dtDate t = d))) x) := by
      refine List.map_congr_left ?_
      intro x hx
      exact (dailyTotal_filter_ne txns d x (fun he => hnd'.1 (he ▸ hx))).symm
    have hcovB : ∀ t ∈ txns.filter (fun t => ! decide (dtDate t = d)), dtDate t ∈ ks := by
      intro t ht
      rcases List.mem_filter.mp ht with ⟨htx, hne⟩
      rcases List.mem_cons.mp (hcov t htx) with he | hk
      · simp [he] at hne
      · exact hk
    rw [List.map_cons, List.sum_cons, hmap, ih hnd'.2 _ hcovB]
    exact sum_map_filter_split txns (fun t => decide (dtDate t = d))

lemma dailySpending_sum_eq (txns : List Txn) :
    ((dailySpending txns).map Prod.snd).sum = (txns.map Txn.amount).sum := by
  unfold dailySpending
  rw [List.map_map]
  exact sum_dailyTotal_of_cover _ (nodup_uniqueKeys _) txns
    (fun t ht => (mem_uniqueKeys _ _).mpr (List.mem_map_of_mem dtDate ht))

lemma dailyTotal_aggAsTxns : ∀ (keys : List ℤ) (g : ℤ → ℚ), keys.Nodup → ∀ d ∈ keys,
    dailyTotal (aggAsTxns (keys.map (fun k => (k, g k)))) d = g d := by
  intro keys
  induction keys with
  | nil => intro g _ d hd; cases hd
  | cons k ks ih =>
    intro g hnd d hd
    have hnd' := List.nodup_cons.mp hnd
    have hagg : aggAsTxns ((k :: ks).map (fun j => (j, g j)))
        = ({ date := { day := k, tod := 0 }, amount := g k } : Txn)
          :: aggAsTxns (ks.map (fun j => (j, g j))) := rfl
    rcases List.mem_cons.mp hd with rfl | hdk
    · have hrest : (aggAsTxns (ks.map (fun j => (j, g j)))).filter
          (fun t => decide (dtDate t = d)) = [] := by
        rw [List.filter_eq_nil_iff]
        intro t ht
        rcases List.mem_map.mp ht with ⟨p, hp, rfl⟩
        rcases List.mem_map.mp hp with ⟨j, hj, rfl⟩
        simp only [dtDate, decide_eq_true_eq]
        exact fun he => hnd'.1 (he ▸ hj)
      unfold dailyTotal
      rw [hagg, List.filter_cons, if_pos (by simp [dtDate]), hrest]
      simp
    · unfold dailyTotal
      rw [hagg, List.filter_cons,
        if_neg (by simp only [dtDate, decide_eq_true_eq]
                   exact fun he => hnd'.1 (he ▸ hdk))]
      exact ih g hnd'.2 d hdk

lemma dailySpending_idem (txns : List Txn) :
    dailySpending (aggAsTxns (dailySpending txns)) = dailySpending txns := by
  have hkeys : (aggAsTxns (dailySpending txns)).map dtDate
      = uniqueKeys (txns.map dtDate) := by
    unfold aggAsTxns dailySpending
    rw [List.map_map, List.map_map]
    exact List.map_id' _
  conv_lhs => rw [dailySpending]
  rw [hkeys, uniqueKeys_eq_self _ (nodup_uniqueKeys _)]
  conv_rhs => rw [dailySpending]
  refine List.map_congr_left ?_
  intro d hd
  have := dailyTotal_aggAsTxns (uniqueKeys (txns.map dtDate)) (dailyTotal txns)
    (nodup_uniqueKeys _) d hd
  rw [show aggAsTxns (dailySpending txns)
      = aggAsTxns ((uniqueKeys (txns.map dtDate)).map (fun k => (k, dailyTotal txns k)))
      from rfl, this]

/-- A transaction with its time-of-day component zeroed: used to state that
daily grouping depends only on the calendar-date component. -/
def stripTod (t : Txn) : Txn :=
  { date := { day := t.date.day, tod := 0 }, amount := t.amount }

lemma dailyTotal_stripTod (txns : List Txn) (d : ℤ) :
    dailyTotal (txns.map stripTod) d = dailyTotal txns d := by
  unfold dailyTotal
  induction txns with
  | nil => rfl
  | cons t rest ih =>
    rw [List.map_cons, List.filter_cons, List.filter_cons]
    by_cases h : dtDate t = d
    · rw [if_pos (by simpa [stripTod, dtDate] using h), if_pos (by simpa [dtDate] using h)]
      simp only [List.map_cons, List.sum_cons]
      rw [show (stripTod t).amount = t.amount from rfl, ih]
    · rw [if_neg (by simpa [stripTod, dtDate] using h), if_neg (by simpa [dtDate] using h)]
      exact ih

lemma dailySpending_stripTod (txns : List Txn) :
    dailySpending (txns.map stripTod) = dailySpending txns := by
  unfold dailySpending
  rw [List.map_map]
  have hcomp : (dtDate ∘ stripTod) = dtDate := rfl
  rw [hcomp]
  refine List.map_congr_left ?_
  intro d _
  rw [dailyTotal_stripTod]

/-! ### Claim C1: recovery bucketing -/

/-- Claim C1, counterexample: the bucketing used by
`analyze_spending_vs_recovery` is `pd.cut` with bins `[0, 33, 66, 100]`
and its default left-open bins, so the score 0 — a value of the 0–100
score range — falls into NO band (its category is NaN), refuting both
"every score in [0,100] falls into exactly one band" and "s = 0 is in
Low". -/
theorem recovery_bucketing_zero_unbucketed : cutRecovery 0 = none := by decide

/-- Claim C1 (amended): on the left-open range 0 < s ≤ 100 the bucketing
used by `analyze_spending_vs_recovery` is total and disjoint — every such
score gets exactly one band — and a value exactly at a bin edge belongs to
the lower band (33 is Low, 66 is Medium, 100 is High); the score 0 alone
is excluded, belonging to no band. -/
theorem recovery_bucketing_total_disjoint (s : ℚ) (h0 : 0 < s) (h1 : s ≤ 100) :
    (∃! c, cutRecovery s = some c)
    ∧ (s ≤ 33 → cutRecovery s = some .Low)
    ∧ (33 < s → s ≤ 66 → cutRecovery s = some .Medium)
    ∧ (66 < s → cutRecovery s = some .High) := by
  have huniq : ∀ c : RecoveryCategory, cutRecovery s = some c →
      ∃! x, cutRecovery s = some x := by
    intro c hc
    exact ⟨c, hc, fun y hy => by rw [hc] at hy; exact (Option.some_inj.mp hy).symm⟩
  by_cases h33 : s ≤ 33
  · have hlow : cutRecovery s = some .Low := by
      unfold cutRecovery
      rw [if_pos ⟨h0, h33⟩]
    exact ⟨huniq _ hlow, fun _ => hlow,
           fun h33x _ => absurd h33 (not_le.mpr h33x),
           fun h66 => absurd h33 (not_le.mpr (by linarith))⟩
  · by_cases h66 : s ≤ 66
    · have hmed : cutRecovery s = some .Medium := by
        unfold cutRecovery
        rw [if_neg (fun hc => h33 hc.2), if_pos ⟨not_le.mp h33, h66⟩]
      exact ⟨huniq _ hmed, fun hle => absurd hle h33, fun _ _ => hmed,
             fun h66x => absurd h66 (not_le.mpr h66x)⟩
    · have hhigh : cutRecovery s = some .High := by
        unfold cutRecovery
        rw [if_neg (fun hc => h33 hc.2), if_neg (fun hc => h66 hc.2),
          if_pos ⟨not_le.mp h66, h1⟩]
      exact ⟨huniq _ hhigh, fun hle => absurd hle h33,
             fun _ h66x => absurd h66x h66, fun _ => hhigh⟩

/-- Claim C1, witness: the amended theorem applied at the bin edge 33,
which belongs to the lower band Low. -/
theorem recovery_bucketing_witness :
    (0 : ℚ) < 33 ∧ (33 : ℚ) ≤ 100 ∧ cutRecovery 33 = some .Low :=
  ⟨by norm_num, by norm_num,
   (recovery_bucketing_total_disjoint 33 (by norm_num) (by norm_num)).2.1 (by norm_num)⟩

/-! ### Claim C2: persistence after interactive authorization -/

lemma lookup_store_insert (s : TokenStore) (v : TokenBundle) :
    List.lookup "whoop" (store_insert s "whoop" v) = some v := by
  simp [store_insert, List.lookup]

/-- A token-endpoint response bundle as WHOOP's token endpoint returns it:
access/refresh token and `expires_in`, and no `issued_at` field (that
field exists only when some caller adds it). -/
def c2_response : TokenBundle :=
  { access_token := some "new-access", refresh_token := some "new-refresh",
    expires_in := some 3600, issued_at := none }

/-- Claim C2, counterexample: `authorize_and_cache_tokens` persists the
response bundle under `"whoop"` exactly as received, so with the endpoint
response `c2_response` (which has no `issued_at`) the persisted bundle's
`issued_at` is absent — the function adds no `issued_at` timestamp. -/
theorem authorize_persists_without_issued_at :
    (List.lookup "whoop" (authorize_and_cache_tokens c2_response []).2).map
        TokenBundle.issued_at = some none := by decide

/-- Claim C2 (amended): `authorize_and_cache_tokens` persists the token
bundle returned by the token endpoint into the token store under the
provider key `"whoop"` unchanged — in particular without adding an
`issued_at` timestamp; `issued_at` is added (and the bundle re-persisted)
only by `get_valid_token`'s re-authorization path after the call
returns. -/
theorem authorize_and_cache_tokens_persists_bundle (resp : TokenBundle)
    (store : TokenStore) (now : ℤ) :
    List.lookup "whoop" (authorize_and_cache_tokens resp store).2 = some resp
    ∧ List.lookup "whoop" (get_valid_token_reauth resp store now).2
        = some { resp with issued_at := some now } := by
  exact ⟨lookup_store_insert store resp,
         lookup_store_insert (store_insert store "whoop" resp) _⟩

/-- Claim C2, witness: the amended theorem applied to a concrete response
bundle and the empty store. -/
theorem authorize_persistence_witness :
    List.lookup "whoop"
        (authorize_and_cache_tokens
          { access_token := some "a", refresh_token := none,
            expires_in := some 60, issued_at := none } []).2
      = some { access_token := some "a", refresh_token := none,
               expires_in := some 60, issued_at := none } :=
  (authorize_and_cache_tokens_persists_bundle _ [] 0).1

/-! ### Claim C3: cached-token reuse inside the expiry margin -/

/-- A cached bundle that contains all three of `access_token`, `issued_at`
and `expires_in`, with `issued_at = 0` (the Unix epoch). -/
def c3_bundle : TokenBundle :=
  { access_token := some "cached-token", refresh_token := some "refresh-token",
    expires_in := some 1000000000, issued_at := some 0 }

/-- Claim C3, counterexample: `c3_bundle` contains `access_token`,
`issued_at` and `expires_in`, and at `now = 1000` the claimed condition
`now < issued_at + expires_in - 60` holds, yet `get_valid_token` does NOT
return the cached token: `issued_at = 0` is Python-falsy, so the truthiness
guard fails and a refresh POST (a network call) is issued instead. -/
theorem valid_window_zero_issued_at_refreshes :
    c3_bundle.access_token = some "cached-token"
    ∧ c3_bundle.issued_at = some 0
    ∧ c3_bundle.expires_in = some 1000000000
    ∧ (1000 : ℤ) < 0 + 1000000000 - 60
    ∧ get_valid_token_action c3_bundle 1000 ≠ .useCached "cached-token"
    ∧ get_valid_token_action c3_bundle 1000 = .refreshPost := by decide

/-- Claim C3 (amended): for every cached bundle whose `access_token` is a
non-empty string and whose `issued_at` and `expires_in` are present and
nonzero (Python-truthy), if `now < issued_at + expires_in - 60` then
`get_valid_token` returns the cached access token, performing no network
call (neither the refresh POST nor a re-authorization). -/
theorem cached_token_reused_within_margin (b : TokenBundle) (a : String)
    (i e now : ℤ)
    (ha : b.access_token = some a) (hne : a ≠ "")
    (hi : b.issued_at = some i) (hiz : i ≠ 0)
    (he : b.expires_in = some e) (hez : e ≠ 0)
    (hlt : now < i + e - 60) :
    get_valid_token_action b now = .useCached a := by
  unfold get_valid_token_action
  rw [ha, hi, he]
  rw [if_pos ⟨by simp [py_truthy, hne], by simp [py_truthy_int, hiz],
    by simp [py_truthy_int, hez], by simpa using hlt⟩]
  rfl

/-- Claim C3, witness: the amended theorem applied to a concrete valid
bundle at a concrete `now` inside the margin. -/
theorem cached_token_reused_witness :
    get_valid_token_action
        { access_token := some "tok", refresh_token := none,
          expires_in := some 3600, issued_at := some 1000 } 2000
      = .useCached "tok" :=
  cached_token_reused_within_margin _ "tok" 1000 3600 2000 rfl (by decide) rfl
    (by decide) rfl (by decide) (by decide)

/-! ### Claim C4: one-shot callback listener and 404 handling -/

/-- Claim C4, counterexample: the server thread runs
`httpd.handle_request()` exactly once, so the listener serves only the
FIRST inbound request of any path and then stops.  Here a favicon probe
arrives first and a perfectly valid `/callback` request (correct state,
non-empty code) arrives second: the valid request is never accepted and
the flow times out with no captured code — refuting "the listener accepts
exactly one request to /callback". -/
theorem listener_stops_after_first_request :
    start_server_until_code "expected-state"
      [{ path := "/favicon.ico", code := none, state := none },
       { path := "/callback?code=goodcode&state=expected-state",
         code := some "goodcode", state := some "expected-state" }] = none := by
  decide

/-- Claim C4 (amended): a request whose path does not start with
`/callback` is answered 404 and leaves the captured code (and the rest of
the handler state) untouched; and the listener handles exactly one inbound
request of ANY path and then stops listening — its outcome on a request
sequence depends only on the first request. -/
theorem listener_one_shot_and_404 (st : HandlerState) (req : Request)
    (hpath : ("/callback".toList).isPrefixOf req.path.toList = false) :
    do_GET st req = (st, .notFound404)
    ∧ ∀ (expected : String) (rest : List Request),
        start_server_until_code expected (req :: rest)
          = start_server_until_code expected [req] := by
  constructor
  · unfold do_GET
    rw [if_neg (by rw [hpath]; exact Bool.false_ne_true)]
  · intro _ _
    rfl

/-- Claim C4, witness: the amended theorem applied to a favicon probe. -/
theorem listener_one_shot_witness :
    do_GET { code := none, state_expected := some "s" }
        { path := "/favicon.ico", code := none, state := none }
      = ({ code := none, state_expected := some "s" }, .notFound404) :=
  (listener_one_shot_and_404 _ _ (by decide)).1

/-! ### Claim C5: state validation on the callback -/

/-- Claim C5 (confirmed): for every callback request (path starting with
`/callback`) whose `state` query parameter is missing or different from
the originally generated state value (a non-empty string, as
`secrets.token_urlsafe(16)` produces), the handler answers 400 and leaves
the handler state — in particular the captured code — exactly as it was:
the code is not populated from that request. -/
theorem state_mismatch_rejected (st : HandlerState) (req : Request) (e : String)
    (hexp : st.state_expected = some e) (hne : e ≠ "")
    (hmis : req.state ≠ some e)
    (hpath : ("/callback".toList).isPrefixOf req.path.toList = true) :
    do_GET st req = (st, .badRequest400) := by
  unfold do_GET
  rw [if_pos hpath, if_pos ⟨by simp [hexp, py_truthy, hne], by rw [hexp]; exact hmis⟩]

/-- Claim C5, witness: a callback request carrying a wrong state against
the expected state `"good"` is answered 400 with no code captured. -/
theorem state_mismatch_witness :
    do_GET { code := none, state_expected := some "good" }
        { path := "/callback?code=c&state=evil", code := some "c",
          state := some "evil" }
      = ({ code := none, state_expected := some "good" }, .badRequest400) :=
  state_mismatch_rejected _ _ "good" rfl (by decide) (by decide) (by decide)

/-! ### Claim C6: empty-input policy of the analysis functions -/

/-- Claim C6, counterexample: with an EMPTY recovery list but a non-empty
workout list and a non-empty transaction list,
`analyze_workout_impact_on_spending` does not return the no-data result —
it never reads the recovery series, and gates only on workouts and
transactions — refuting "for every pair of input series where the
recovery-record list is empty ... analyze_workout_impact_on_spending
returns an explicit no-data result".  (`analyze_spending_vs_recovery`
does return no-data on the same inputs.) -/
theorem workout_analysis_ignores_empty_recovery :
    analyze_spending_vs_recovery []
        [{ date := { day := 0, tod := 0 }, amount := 5 }] = .noData
    ∧ analyze_workout_impact_on_spending [{ date := { day := 0, tod := 0 } }]
        [{ date := { day := 0, tod := 0 }, amount := 5 }] ≠ .noData := by
  constructor
  · decide
  · unfold analyze_workout_impact_on_spending
    rw [if_neg (by simp)]
    simp

/-- Claim C6 (amended): each analysis function returns the explicit
no-data result precisely when one of the two series IT reads is empty —
the recovery list or the transaction list for
`analyze_spending_vs_recovery`, the workout list or the transaction list
for `analyze_workout_impact_on_spending` — and otherwise returns a
computed result (the embedded functions are total: no input raises). -/
theorem no_data_iff_required_series_empty (recovery : List RecoveryRecord)
    (workouts : List WorkoutRecord) (transactions : List Txn) :
    (analyze_spending_vs_recovery recovery transactions = .noData
      ↔ recovery = [] ∨ transactions = [])
    ∧ (analyze_workout_impact_on_spending workouts transactions = .noData
      ↔ workouts = [] ∨ transactions = []) := by
  constructor
  · by_cases h : recovery = [] ∨ transactions = [] <;>
      simp [analyze_spending_vs_recovery, h]
  · by_cases h : workouts = [] ∨ transactions = [] <;>
      simp [analyze_workout_impact_on_spending, h]

/-- Claim C6, witness: the amended theorem applied with an empty
transaction list and a non-empty recovery list — the spec's own example:
`analyze_spending_vs_recovery` returns the explicit no-data result. -/
theorem no_data_policy_witness :
    analyze_spending_vs_recovery
        [{ date := { day := 0, tod := 0 }, score := some 50 }] [] = .noData :=
  (no_data_iff_required_series_empty
      [{ date := { day := 0, tod := 0 }, score := some 50 }] [] []).1.mpr
    (Or.inr rfl)

/-! ### Claim C7: workout-day split safety -/

lemma workout_impact_fields (wS nS : List ℚ) (a : WorkoutImpactAnalysis)
    (ha : a =
      { workout_days :=
          { count := wS.length
            avg_spending := if wS = [] then 0 else wS.sum / wS.length
            total_spending := wS.sum }
        non_workout_days :=
          { count := nS.length
            avg_spending := if nS = [] then 0 else nS.sum / nS.length
            total_spending := nS.sum }
        spending_difference :=
          if wS ≠ [] ∧ nS ≠ [] then
            some ((if wS = [] then 0 else wS.sum / wS.length) -
                  (if nS = [] then 0 else nS.sum / nS.length))
          else none }) :
    (a.workout_days.count = 0 → a.workout_days.avg_spending = 0)
    ∧ (a.non_workout_days.count = 0 → a.non_workout_days.avg_spending = 0)
    ∧ (a.spending_difference.isSome = true
        ↔ (a.workout_days.count ≠ 0 ∧ a.non_workout_days.count ≠ 0)) := by
  subst ha
  by_cases hw : wS = [] <;> by_cases hn : nS = [] <;>
    simp [hw, hn, List.length_eq_zero]

/-- Claim C7 (confirmed): whenever `analyze_workout_impact_on_spending`
returns a computed analysis, the average per-day spend of an empty
partition is exactly 0 (the code guards the division with
`... if partition else 0`, so no division by zero, NaN or error occurs),
and the `spending_difference` key is present in the result if and only if
both partitions are non-empty. -/
theorem workout_split_props (workouts : List WorkoutRecord)
    (transactions : List Txn) (a : WorkoutImpactAnalysis)
    (h : analyze_workout_impact_on_spending workouts transactions = .result a) :
    (a.workout_days.count = 0 → a.workout_days.avg_spending = 0)
    ∧ (a.non_workout_days.count = 0 → a.non_workout_days.avg_spending = 0)
    ∧ (a.spending_difference.isSome = true
        ↔ (a.workout_days.count ≠ 0 ∧ a.non_workout_days.count ≠ 0)) := by
  unfold analyze_workout_impact_on_spending at h
  by_cases hcond : workouts = [] ∨ transactions = []
  · rw [if_pos hcond] at h
    exact absurd h (by simp)
  · rw [if_neg hcond] at h
    simp only [AnalysisResult.result.injEq] at h
    exact workout_impact_fields _ _ a h.symm

/-- The workouts of the spec's worked example: a single workout on day 0. -/
def c7_workouts : List WorkoutRecord := [{ date := { day := 0, tod := 0 } }]

/-- The transactions of the spec's worked example: 20 on day 0 and 30 on
day 1. -/
def c7_txns : List Txn :=
  [{ date := { day := 0, tod := 9 }, amount := 20 },
   { date := { day := 1, tod := 3 }, amount := 30 }]

/-- The analysis the code computes on the spec's worked example: workout
partition [20], non-workout partition [30], difference −10. -/
def c7_result : WorkoutImpactAnalysis :=
  { workout_days := { count := 1, avg_spending := 20, total_spending := 20 }
    non_workout_days := { count := 1, avg_spending := 30, total_spending := 30 }
    spending_difference := some (-10) }

/-- Claim C7, witness: the theorem applied to the spec's worked example
(one workout day with spend 20, one non-workout day with spend 30). -/
theorem workout_split_witness :
    (c7_result.workout_days.count = 0 → c7_result.workout_days.avg_spending = 0)
    ∧ (c7_result.non_workout_days.count = 0 →
        c7_result.non_workout_days.avg_spending = 0)
    ∧ (c7_result.spending_difference.isSome = true
        ↔ (c7_result.workout_days.count ≠ 0
            ∧ c7_result.non_workout_days.count ≠ 0)) :=
  workout_split_props c7_workouts c7_txns c7_result (by
    norm_num [c7_workouts, c7_txns, c7_result, analyze_workout_impact_on_spending,
      uniqueKeys, unique_aux, dailyTotal, dtDate]
    intro h
    simp at h)

/-! ### Claim C8: daily aggregation is idempotent and sum-preserving -/

/-- Claim C8 (confirmed): daily spend aggregation groups by the calendar
date with the time-of-day discarded (zeroing every time-of-day leaves the
aggregate unchanged), re-aggregating its own output (each daily row read
back as a transaction) reproduces it exactly, and the sum of the daily
aggregates equals the sum of all raw transaction amounts — exactly, as the
arithmetic is rational. -/
theorem daily_aggregation_idempotent_sum_preserving (txns : List Txn) :
    dailySpending (aggAsTxns (dailySpending txns)) = dailySpending txns
    ∧ ((dailySpending txns).map Prod.snd).sum = (txns.map Txn.amount).sum
    ∧ dailySpending (txns.map stripTod) = dailySpending txns :=
  ⟨dailySpending_idem txns, dailySpending_sum_eq txns, dailySpending_stripTod txns⟩

/-- Claim C8, witness: the theorem applied to a concrete two-transaction
list sharing one calendar day at different times of day. -/
theorem daily_aggregation_witness :
    ((dailySpending [{ date := { day := 0, tod := 9 }, amount := 20 },
                     { date := { day := 0, tod := 3 }, amount := 30 }]).map
        Prod.snd).sum
      = (([{ date := { day := 0, tod := 9 }, amount := 20 },
           { date := { day := 0, tod := 3 }, amount := 30 }] : List Txn).map
          Txn.amount).sum :=
  (daily_aggregation_idempotent_sum_preserving _).2.1

/-! ### Claim C9: totality of the token-cache read -/

/-- Claim C9, counterexample: a token file holding the valid JSON text
`5` — valid JSON that is not an object — is returned by `read_tokens`
as-is: the result is the JSON number 5, not a dictionary, refuting
"read_tokens returns a dictionary for every state of the token file". -/
theorem read_tokens_nonobject_passthrough :
    read_tokens (some (some (.num 5))) = Json.num 5
    ∧ Json.isObj (read_tokens (some (some (.num 5)))) = false :=
  ⟨rfl, rfl⟩

/-- Claim C9 (amended): `read_tokens` is total — every file state yields a
returned value, never an exception — and returns the empty dictionary when
the token file does not exist and when its contents fail to parse, and the
parsed JSON value, whatever it is, when the file exists and holds valid
JSON (a dictionary precisely when that JSON is an object). -/
theorem read_tokens_total (file : TokenFileState) :
    (file = none → read_tokens file = .obj [])
    ∧ (file = some none → read_tokens file = .obj [])
    ∧ (∀ j, file = some (some j) → read_tokens file = j) := by
  refine ⟨?_, ?_, ?_⟩
  · intro h; subst h; rfl
  · intro h; subst h; rfl
  · intro j h; subst h; rfl

/-- Claim C9, witness: the amended theorem applied to a missing token
file. -/
theorem read_tokens_total_witness : read_tokens none = .obj [] :=
  (read_tokens_total none).1 rfl

/-! ### Claim C10: zero/missing scores excluded from the report -/

/-- Claim C10 (confirmed): in `generate_health_finance_report`, a recovery
record whose `score` is absent or equal to 0 is invisible to the recovery
statistics: adding such a record to the input changes nothing about
`average_score`, `best_score`, `worst_score` or the `score_distribution`
counts — even though 0 is a valid point of the 0–100 score range
(the list comprehension filters on Python truthiness of `r.get("score")`,
which drops both `None` and 0). -/
theorem zero_or_missing_score_excluded (r : RecoveryRecord)
    (recs : List RecoveryRecord)
    (h : r.score = none ∨ r.score = some 0) :
    recovery_analysis (r :: recs) = recovery_analysis recs := by
  have hfalse : py_truthy_num r.score = false := by
    rcases h with h | h <;> simp [h, py_truthy_num]
  have hscores : recovery_scores (r :: recs) = recovery_scores recs := by
    simp [recovery_scores, List.filter_cons, hfalse]
  by_cases hrec : recs = []
  · subst hrec
    simp [recovery_analysis, hscores, recovery_scores, hfalse]
  · simp [recovery_analysis, hscores, hrec]

/-- Claim C10, witness: the theorem applied to a record with score 0
prepended to a singleton list with score 50. -/
theorem zero_score_excluded_witness :
    recovery_analysis [{ date := { day := 0, tod := 0 }, score := some 0 },
                       { date := { day := 1, tod := 0 }, score := some 50 }]
      = recovery_analysis [{ date := { day := 1, tod := 0 }, score := some 50 }] :=
  zero_or_missing_score_excluded _ _ (Or.inr rfl)
